import Mathlib

/-!
Shallow embedding of `src/components/script/dom/xmlhttprequest.rs` (the
XMLHttpRequest lifecycle controller) and proofs about it.

Machine integers: the source uses `u16`/`u32`/`usize` counters; we model them
as `Nat` and write the wrap-around (`% 2^32`) explicitly at the one place the
source performs arithmetic on them (`terminate_ongoing_fetch`'s generation
bump and `SetTimeout`'s `as u32` cast).  Byte strings (`ByteString`,
`Vec<u8>`, `HeaderValue`) are `List Nat` with each element a byte value.
-/

/-- The bytes of an ASCII string literal, used to write concrete byte-string
inputs. -/
def bytes (s : String) : List Nat := s.toList.map Char.toNat

/-- Model of `enum XMLHttpRequestState`. -/
inductive XHRReadyState
  | unsent
  | opened
  | headersReceived
  | loading
  | done
deriving DecidableEq, Repr

/-- The subset of `dom::bindings::error::Error` used by this file:
`InvalidState`, `Syntax`, `Security`, `InvalidAccess`, `Network`, `Abort`,
`Timeout`. -/
inductive XHRError
  | invalidState
  | syntaxError
  | security
  | invalidAccess
  | network
  | abortError
  | timeoutError
deriving DecidableEq, Repr

/-- Model of `XMLHttpRequestResponseType` (`_empty`, `Text`, `Document`,
`Json`, `Blob`, `Arraybuffer`). -/
inductive ResponseType
  | empty
  | text
  | document
  | json
  | blob
  | arraybuffer
deriving DecidableEq, Repr

/-- Model of `http::HeaderMap`: an ordered multimap from lowercased header
names (byte lists) to one entry per name holding the list of values for that
name, in insertion order.  `keys()` iteration order is the entry order. -/
abbrev HeaderMap := List (List Nat × List (List Nat))

/-- Model of `HeaderMap::get_all`: all values stored for `name`. -/
def headerGetAll (h : HeaderMap) (name : List Nat) : List (List Nat) :=
  match h.find? (fun e => e.1 == name) with
  | some e => e.2
  | none => []

/-- Model of `HeaderMap::get`: the first value stored for `name`. -/
def headerGet (h : HeaderMap) (name : List Nat) : Option (List Nat) :=
  (headerGetAll h name).head?

/-- Model of `HeaderMap::insert`: replaces all values for `name` by the single
value `v` (keeping the entry position), inserting a new entry at the end when
the name is absent. -/
def headerInsert (h : HeaderMap) (name v : List Nat) : HeaderMap :=
  match h with
  | [] => [(name, [v])]
  | e :: t => if e.1 == name then (e.1, [v]) :: t else e :: headerInsert t name v

/-- Model of `HeaderMap::remove`: drops the entry for `name`. -/
def headerRemove (h : HeaderMap) (name : List Nat) : HeaderMap :=
  h.filter (fun e => !(e.1 == name))

/-- Model of `HeaderMap::contains_key`. -/
def headerContainsKey (h : HeaderMap) (name : List Nat) : Bool :=
  h.any (fun e => e.1 == name)

/-- Parse a nonempty all-ASCII-digit byte list as a decimal number. -/
def parseDecimal (l : List Nat) : Option Nat :=
  if l ≠ [] ∧ l.all (fun c => decide (48 ≤ c ∧ c ≤ 57)) then
    some (l.foldl (fun acc c => acc * 10 + (c - 48)) 0)
  else none

/-- Modelled from the spec: `typed_get::<ContentLength>` of the external
`headers` crate (an external collaborator, not part of this repository):
looks up the `content-length` header and parses it as a decimal length. -/
def typedGetContentLength (h : HeaderMap) : Option Nat :=
  match headerGet h (bytes "content-length") with
  | some v => parseDecimal v
  | none => none

/-! ## The field-value grammar validator (`is_field_value`) -/

/-- Model of the source's `enum PreviousCharacter` inside `is_field_value`:
classification of the previous byte, needed for the `[CRLF] (SP|HT)` rule. -/
inductive PreviousCharacter
  | other
  | cr
  | lf
  | spht
deriving DecidableEq, Repr

/-- One step of the source's `is_field_value` loop body (the closure passed to
`slice.iter().all`): given the previous-character class and the next byte,
either the byte is rejected (`none`) or accepted with the updated class.  The
branch order follows the source's `match` arms: CR (13), LF (10), SP (32),
HT (9), CTLs (`0..=31 | 127`), non-ASCII (`> 127`), then the default arm. -/
def fieldValueStep (prev : PreviousCharacter) (x : Nat) : Option PreviousCharacter :=
  if x = 13 then
    if prev = .other ∨ prev = .spht then some .cr else none
  else if x = 10 then
    if prev = .cr then some .lf else none
  else if x = 32 then
    if prev = .lf ∨ prev = .spht then some .spht
    else if prev = .other then some .other
    else none
  else if x = 9 then
    if prev = .lf ∨ prev = .spht then some .spht else none
  else if x ≤ 31 ∨ x = 127 then none
  else if 127 < x then none
  else if prev = .other ∨ prev = .spht then some .other
  else none

/-- The source's `slice.iter().all(...)` loop carrying the mutable `prev`. -/
def fieldValueLoop (prev : PreviousCharacter) : List Nat → Bool
  | [] => true
  | x :: rest =>
    match fieldValueStep prev x with
    | some p => fieldValueLoop p rest
    | none => false

/-- Model of `is_field_value`: whether a byte slice is a `field-value` as
defined by RFC 2616. -/
def is_field_value (slice : List Nat) : Bool :=
  fieldValueLoop .other slice

/-- The 4-state machine `{Other, CR, LF, SP/HT-run}` exactly as the
specification describes the `field-value` grammar: a CR must be followed by
LF, a CRLF must be immediately followed by at least one SP/HT (folding),
CTL characters (0-31, 127) are otherwise forbidden, non-ASCII bytes are
forbidden, and each byte is accepted or rejected in sequence. -/
def specFieldValueStep : PreviousCharacter → Nat → Option PreviousCharacter
  | .cr, x => if x = 10 then some .lf else none
  | .lf, x => if x = 32 ∨ x = 9 then some .spht else none
  | .other, x =>
    if x = 13 then some .cr
    else if x = 32 then some .other
    else if x ≤ 31 ∨ x = 127 ∨ 127 < x then none
    else some .other
  | .spht, x =>
    if x = 13 then some .cr
    else if x = 32 ∨ x = 9 then some .spht
    else if x ≤ 31 ∨ x = 127 ∨ 127 < x then none
    else some .other

/-- Acceptance by the specification's 4-state machine, started in the `Other`
state. -/
def specFieldValueAccepts (l : List Nat) : Bool :=
  (List.foldlM specFieldValueStep PreviousCharacter.other l).isSome

lemma fieldValueStep_eq_spec (st : PreviousCharacter) (x : Nat) :
    fieldValueStep st x = specFieldValueStep st x := by
  cases st <;> simp only [fieldValueStep, specFieldValueStep] <;>
    split_ifs <;> first | rfl | omega | simp_all

lemma fieldValueLoop_eq_spec (l : List Nat) : ∀ st : PreviousCharacter,
    fieldValueLoop st l = (List.foldlM specFieldValueStep st l).isSome := by
  induction l with
  | nil => intro st; rfl
  | cons x rest ih =>
    intro st
    rw [show fieldValueLoop st (x :: rest) =
        (match fieldValueStep st x with
         | some p => fieldValueLoop p rest
         | none => false) from rfl]
    rw [fieldValueStep_eq_spec]
    cases h : specFieldValueStep st x <;>
      simp [List.foldlM, h, ih]

/-! ## The controller state -/

/-- Model of a JavaScript value as stored in the `response_json` heap slot and
produced by the JSON parse. -/
inductive JVal
  | undef
  | null
  | num (n : Int)
  | boolean (b : Bool)
  | str (s : String)
  | objOrArr
deriving DecidableEq, Repr

/-- Model of a resolved `url::Url` (the `url` crate is an external
collaborator): only the pieces `Open_` touches are represented. -/
structure UrlModel where
  host : Option String := none
  username : String := ""
  password : Option String := none
deriving DecidableEq, Repr

/-- Model of `hyper::Method`: the named variants `Open_` distinguishes plus
extension methods carrying their string. -/
inductive MethodM
  | get
  | head
  | post
  | put
  | deleteM
  | options
  | connect
  | trace
  | ext (s : String)
deriving DecidableEq, Repr

/-- String form of a method (`Method::as_str`). -/
def MethodM.asStr : MethodM → String
  | .get => "GET"
  | .head => "HEAD"
  | .post => "POST"
  | .put => "PUT"
  | .deleteM => "DELETE"
  | .options => "OPTIONS"
  | .connect => "CONNECT"
  | .trace => "TRACE"
  | .ext s => s

/-- Model of the `XMLHttpRequest` struct: every field the verified operations
read or write.  `isWindow` / `isWorker` / `documentFullyActive` model the
kind and state of the associated global scope
(`global().is::<Window>()`, `global().is::<WorkerGlobalScope>()`,
`window.Document().is_fully_active()`).  `responseReserved` records the
argument of the last `Vec::reserve` call on the response buffer.
`responseStatusOk` is `response_status: Cell<Result<(),()>>` as a Bool
(`true` = `Ok(())`).  `cancelCount` counts `FetchCanceller::cancel` calls
and `cancellerIgnored` records `FetchCanceller::ignore`. -/
structure XHRState where
  isWindow : Bool
  isWorker : Bool
  documentFullyActive : Bool
  readyState : XHRReadyState
  timeout : Nat
  withCredentials : Bool
  responseUrl : String
  status : Nat
  statusText : List Nat
  response : List Nat
  responseReserved : Nat
  responseType : ResponseType
  responseJson : JVal
  responseHeaders : HeaderMap
  overrideCharset : Option String
  requestMethod : MethodM
  requestUrl : Option UrlModel
  requestHeaders : HeaderMap
  requestBodyLen : Nat
  sync : Bool
  uploadComplete : Bool
  sendFlag : Bool
  timeoutCancel : Option Nat
  fetchTime : Int
  generationId : Nat
  responseStatusOk : Bool
  cancelCount : Nat
  cancellerIgnored : Bool
deriving DecidableEq, Repr

/-- Model of `XMLHttpRequest::new_inherited`: the freshly constructed object
for a global scope of the given kind. -/
def newXHR (isWindow isWorker documentFullyActive : Bool) : XHRState where
  isWindow := isWindow
  isWorker := isWorker
  documentFullyActive := documentFullyActive
  readyState := .unsent
  timeout := 0
  withCredentials := false
  responseUrl := ""
  status := 0
  statusText := []
  response := []
  responseReserved := 0
  responseType := .empty
  responseJson := .undef
  responseHeaders := []
  overrideCharset := none
  requestMethod := .get
  requestUrl := none
  requestHeaders := []
  requestBodyLen := 0
  sync := false
  uploadComplete := false
  sendFlag := false
  timeoutCancel := none
  fetchTime := 0
  generationId := 0
  responseStatusOk := true
  cancelCount := 0
  cancellerIgnored := false

/-- A notification fired on the object: a `readystatechange` event, an upload
progress event (`dispatch_upload_progress_event`), or a response progress
event (`dispatch_response_progress_event`), carrying the event type name. -/
inductive Notif
  | readystatechange
  | upload (name : String)
  | response (name : String)
deriving DecidableEq, Repr

/-- An event handler as invoked by `Event::fire` / progress-event dispatch.
Handlers are script: they may reenter the object (calling `abort`/`open`) and
so may transform the whole state.  The source guards against this with the
generation checks; modelling the handler as an arbitrary state transformer
keeps those guards meaningful. -/
abbrev Handler := Notif → XHRState → XHRState

/-- Model of `XHRProgress`. -/
inductive XHRProgress
  | headersReceived (gen : Nat) (headers : Option HeaderMap) (status : Option (Nat × List Nat))
  | loading (gen : Nat) (chunk : List Nat)
  | doneEvt (gen : Nat)
  | errored (gen : Nat) (e : XHRError)
deriving Repr

/-- Model of `XHRProgress::generation_id`. -/
def XHRProgress.generationId : XHRProgress → Nat
  | .headersReceived g _ _ => g
  | .loading g _ => g
  | .doneEvt g => g
  | .errored g _ => g

/-- Model of `cancel_timeout`: unschedules and drops the outstanding timeout
handle. -/
def cancelTimeoutF (s : XHRState) : XHRState := { s with timeoutCancel := none }

/-- Model of `set_timeout`: schedules the timeout callback, replacing any
previous handle (the handle is modelled by the scheduled duration). -/
def setTimeoutTimer (s : XHRState) (durationMs : Nat) : XHRState :=
  { s with timeoutCancel := some durationMs }

/-- Model of `terminate_ongoing_fetch`: cancels the fetch canceller, bumps the
generation id (a `u32`, hence the wrap), and resets the response status flag
to `Ok`. -/
def terminateOngoingFetch (s : XHRState) : XHRState :=
  { s with cancelCount := s.cancelCount + 1,
           generationId := (s.generationId + 1) % 4294967296,
           responseStatusOk := true }

/-- Fire one notification through the handler, then run the continuation `k`
unless the handler invalidated the generation — the source's
`return_if_fetch_was_terminated!()` check placed after each dispatch. -/
def fireThen (handler : Handler) (msgId : Nat) (n : Notif) (s : XHRState)
    (k : XHRState → XHRState × List Notif) : XHRState × List Notif :=
  let s := handler n s
  if s.generationId ≠ msgId then (s, [n])
  else
    let r := k s
    (r.1, n :: r.2)

/-- Model of `process_partial_response`, the single event-processing
algorithm shared by both delivery modes.  It returns the resulting state and
the ordered list of notifications fired.  The source's `assert!`s (state
`Opened` on `HeadersReceived`, state in `{HeadersReceived, Loading}` or sync
on `Done`) are preconditions stated on the theorems, not runtime checks
here. -/
def processPartialResponse (handler : Handler) (s : XHRState) (p : XHRProgress) :
    XHRState × List Notif :=
  let msgId := p.generationId
  -- Ignore message if it belongs to a terminated fetch
  if msgId ≠ s.generationId then (s, [])
  -- Ignore messages coming from previously-errored responses
  else if s.responseStatusOk = false then (s, [])
  else
    match p with
    | .headersReceived _ headers status =>
      -- Substep 1: upload is complete
      let s := { s with uploadComplete := true }
      let rest : XHRState → XHRState × List Notif := fun s =>
        -- Substep 2: copy status code / status text
        let s := match status with
          | some cr => { s with status := cr.1, statusText := cr.2 }
          | none => s
        let s := match headers with
          | some h => { s with responseHeaders := h }
          | none => s
        -- reset the buffer; pre-reserve up to the 4 MiB ceiling
        let len := headers.bind typedGetContentLength
        let s := { s with response := [] }
        let s := match len with
          | some n => { s with responseReserved := min 4194304 n }
          | none => s
        -- Substep 3
        if s.sync = false then
          let s := { s with readyState := .headersReceived }
          (handler .readystatechange s, [.readystatechange])
        else (s, [])
      if s.sync = false then
        fireThen handler msgId (.upload "progress") s (fun s =>
        fireThen handler msgId (.upload "load") s (fun s =>
        fireThen handler msgId (.upload "loadend") s rest))
      else rest s
    | .loading _ chunk =>
      -- append the chunk to the response buffer
      let s := { s with response := s.response ++ chunk }
      if s.sync = false then
        let s := if s.readyState = .headersReceived
          then { s with readyState := .loading } else s
        fireThen handler msgId .readystatechange s (fun s =>
          (handler (.response "progress") s, [.response "progress"]))
      else (s, [])
    | .doneEvt _ =>
      let s := cancelTimeoutF s
      let s := { s with cancellerIgnored := true }
      -- Subsubsteps 6-8
      let s := { s with sendFlag := false }
      -- change_ready_state(Done): set, then fire readystatechange
      let s := { s with readyState := .done }
      fireThen handler msgId .readystatechange s (fun s =>
      -- Subsubsteps 11-12
      fireThen handler msgId (.response "load") s (fun s =>
        (handler (.response "loadend") s, [.response "loadend"])))
    | .errored _ e =>
      let s := cancelTimeoutF s
      let s := { s with cancellerIgnored := true }
      -- discard_subsequent_responses
      let s := { s with responseStatusOk := false }
      let s := { s with sendFlag := false }
      -- change_ready_state(Done)
      let s := { s with readyState := .done }
      fireThen handler msgId .readystatechange s (fun s =>
        let errormsg := match e with
          | .abortError => "abort"
          | .timeoutError => "timeout"
          | _ => "error"
        if s.uploadComplete = false then
          let s := { s with uploadComplete := true }
          fireThen handler msgId (.upload errormsg) s (fun s =>
          fireThen handler msgId (.upload "loadend") s (fun s =>
          fireThen handler msgId (.response errormsg) s (fun s =>
            (handler (.response "loadend") s, [.response "loadend"]))))
        else
          fireThen handler msgId (.response errormsg) s (fun s =>
            (handler (.response "loadend") s, [.response "loadend"])))

/-- Model of the `Abort` method. -/
def Abort (handler : Handler) (s : XHRState) : XHRState × List Notif :=
  -- Step 1
  let s := terminateOngoingFetch s
  -- Step 2
  if (s.readyState = .opened ∧ s.sendFlag = true) ∨
      s.readyState = .headersReceived ∨ s.readyState = .loading then
    let genId := s.generationId
    let r := processPartialResponse handler s (.errored genId .abortError)
    -- if open was called in one of the handlers, terminate the abort sequence
    if r.1.generationId ≠ genId then r
    else ({ r.1 with readyState := .unsent }, r.2)
  -- Step 3
  else ({ s with readyState := .unsent }, [])

/-! ## Timeout, response type -/

/-- Model of `sync_in_window`: synchronous flag set while the global scope is
a `Window`. -/
def syncInWindow (s : XHRState) : Bool := s.sync && s.isWindow

/-- Model of the `SetTimeout` method.  `now` is the current wall-clock second
(`time::now().to_timespec().sec`, external); the source computes the elapsed
seconds since `fetch_time` and casts `progress * 1000` from `i64` to `u32`
(`as u32` takes the low 32 bits, written here as `% 2^32`). -/
def SetTimeout (now : Int) (s : XHRState) (timeout : Nat) : XHRState × Option XHRError :=
  -- Step 1
  if syncInWindow s then (s, some .invalidAccess)
  else
    -- Step 2
    let s := { s with timeout := timeout }
    if s.sendFlag then
      if timeout = 0 then (cancelTimeoutF s, none)
      else
        let progress := now - s.fetchTime
        let ms : Nat := ((progress * 1000) % 4294967296).toNat
        if timeout > ms then (setTimeoutTimer s (timeout - ms), none)
        else (setTimeoutTimer s 0, none)
    else (s, none)

/-- Model of the `SetResponseType` method. -/
def SetResponseType (s : XHRState) (responseType : ResponseType) : XHRState × Option XHRError :=
  -- Step 1
  if s.isWorker = true ∧ responseType = .document then (s, none)
  else
    match s.readyState with
    -- Step 2
    | .loading | .done => (s, some .invalidState)
    | _ =>
      -- Step 3
      if syncInWindow s then (s, some .invalidAccess)
      -- Step 4
      else ({ s with responseType := responseType }, none)

/-! ## Response header views -/

/-- Model of `filter_response_headers`: a copy of the response headers with
`set-cookie` and `set-cookie2` removed. -/
def filterResponseHeaders (s : XHRState) : HeaderMap :=
  headerRemove (headerRemove s.responseHeaders (bytes "set-cookie")) (bytes "set-cookie2")

/-- Model of the `GetAllResponseHeaders` method.  The inner loop reproduces
the source exactly: `first` starts `true` and the only assignment
`first = false` sits inside `if !first`, so it can never execute. -/
def GetAllResponseHeaders (s : XHRState) : List Nat :=
  (filterResponseHeaders s).foldl (fun vec e =>
    let vec := vec ++ e.1 ++ bytes ": "
    let r := e.2.foldl (fun (acc : List Nat × Bool) value =>
      let acc := if acc.2 = false then (acc.1 ++ bytes ", ", false) else acc
      (acc.1 ++ value, acc.2)) (vec, true)
    r.1 ++ bytes "\r\n") []

/-- Model of the `GetResponseHeader` method: the values for `name`
(case-insensitively) joined by ", " with each value trimmed, or `none` when
the header is absent.  Trimming is `str::trim` on a UTF-8 view; response
header values here are ASCII, modelled as trimming ASCII whitespace. -/
def GetResponseHeader (s : XHRState) (name : List Nat) : Option (List Nat) :=
  let values := headerGetAll (filterResponseHeaders s)
      (name.map (fun c => if 65 ≤ c ∧ c ≤ 90 then c + 32 else c))
  let r := values.foldl (fun (acc : List Nat × Bool) value =>
    let acc := if acc.2 = false then (acc.1 ++ bytes ", ", acc.2) else acc
    let trimmed := ((value.dropWhile (fun c => decide (c = 32 ∨ c = 9 ∨ c = 10 ∨ c = 13))).reverse.dropWhile
        (fun c => decide (c = 32 ∨ c = 9 ∨ c = 10 ∨ c = 13))).reverse
    (acc.1 ++ trimmed, false)) ([], true)
  if r.2 then none else some r.1

/-! ## Request headers (`SetRequestHeader`) -/

/-- Modelled from the spec: `trim_http_whitespace` from `net_traits` (not
under `src/`): strips leading and trailing HTTP whitespace bytes
(SP, HT, CR, LF) from the value. -/
def trimHttpWhitespace (l : List Nat) : List Nat :=
  let ws := fun c => decide (c = 32 ∨ c = 9 ∨ c = 13 ∨ c = 10)
  ((l.dropWhile ws).reverse.dropWhile ws).reverse

/-- Separator characters of the RFC 2616 token grammar. -/
def isSeparatorChar (c : Nat) : Bool :=
  ([40, 41, 60, 62, 64, 44, 59, 58, 92, 34, 47, 91, 93, 63, 61, 123, 125, 32, 9] : List Nat).contains c

/-- Modelled from the spec: `is_token` from `dom::bindings::str` (not under
`src/`): a header name must be an HTTP token — nonempty, visible US-ASCII
excluding separators and control characters, per the RFC 2616 token
grammar. -/
def is_token (s : List Nat) : Bool :=
  !s.isEmpty && s.all (fun c => decide (33 ≤ c ∧ c ≤ 126) && !isSeparatorChar c)

/-- Modelled from the spec: `is_forbidden_header_name` from `dom::headers`
(not under `src/`), per the fetch specification's forbidden header names:
the listed names plus any name starting with `proxy-` or `sec-`. -/
def isForbiddenHeaderName (name : List Nat) : Bool :=
  ([bytes "accept-charset", bytes "accept-encoding",
    bytes "access-control-request-headers", bytes "access-control-request-method",
    bytes "connection", bytes "content-length", bytes "cookie", bytes "cookie2",
    bytes "date", bytes "dnt", bytes "expect", bytes "host", bytes "keep-alive",
    bytes "origin", bytes "referer", bytes "te", bytes "trailer",
    bytes "transfer-encoding", bytes "upgrade", bytes "via"] : List (List Nat)).contains name ||
  (bytes "proxy-").isPrefixOf name || (bytes "sec-").isPrefixOf name

/-- Model of `ByteString::to_lower`: ASCII-lowercases each byte. -/
def toLowerBytes (l : List Nat) : List Nat :=
  l.map (fun c => if 65 ≤ c ∧ c ≤ 90 then c + 32 else c)

/-- Model of the `SetRequestHeader` method. -/
def SetRequestHeader (s : XHRState) (name value : List Nat) : XHRState × Option XHRError :=
  -- Step 1, 2
  if s.readyState ≠ .opened ∨ s.sendFlag = true then (s, some .invalidState)
  else
    -- Step 3
    let value := trimHttpWhitespace value
    -- Step 4
    if !is_token name || !is_field_value value then (s, some .syntaxError)
    else
      let nameLower := toLowerBytes name
      -- Step 5
      if isForbiddenHeaderName nameLower then (s, none)
      else
        -- Step 6
        let newValue := match headerGet s.requestHeaders nameLower with
          | some raw => raw ++ bytes ", " ++ value
          | none => value
        ({ s with requestHeaders := headerInsert s.requestHeaders nameLower newValue }, none)

/-! ## JSON response -/

/-- Strip a UTF-8 byte-order mark from the front of the byte buffer. -/
def removeBom : List Nat → List Nat
  | 239 :: 187 :: 191 :: rest => rest
  | l => l

/-- Modelled from the spec: `decode_to_utf16_with_bom_removal` with the
hard-coded `UTF_8` encoding (the decoder itself lives in `encoding_rs`, an
external collaborator): removes a UTF-8 BOM and decodes the bytes to UTF-16
code units.  ASCII bytes decode to themselves; this model maps any non-ASCII
byte to the replacement character, which is enough for the claims proved
here (all further consumers fail on non-digit units either way). -/
def decodeToUtf16WithBomRemoval (l : List Nat) : List Nat :=
  (removeBom l).map (fun b => if b < 128 then b else 65533)

/-- JSON insignificant whitespace. -/
def isJsonWs (c : Nat) : Bool := c == 32 || c == 9 || c == 10 || c == 13

/-- Modelled from the spec: `JS_ParseJSON` (the external JSON parsing
engine): parses the UTF-16 text as a structured value, `none` on parse
failure.  Modelled for integer literals with optional surrounding JSON
whitespace; every other text is a parse failure in this model. -/
def jsParseJSON (text : List Nat) : Option JVal :=
  let t := ((text.dropWhile isJsonWs).reverse.dropWhile isJsonWs).reverse
  match t with
  | 45 :: ds => (parseDecimal ds).map (fun n => JVal.num (-(n : Int)))
  | ds => (parseDecimal ds).map (fun n => JVal.num (n : Int))

/-- Model of `json_response`: the cached JSON-typed response view.  Returns
the produced value and the state (the cache slot is filled only on a
successful parse). -/
def json_response (s : XHRState) : JVal × XHRState :=
  -- Step 1: return the cached value unless it is null or undefined
  if s.responseJson ≠ .null ∧ s.responseJson ≠ .undef then (s.responseJson, s)
  -- Step 2, 3: empty buffer yields null
  else if s.response.length = 0 then (.null, s)
  else
    -- Step 4: always UTF-8 with BOM removal, charset override not consulted
    let jsonText := decodeToUtf16WithBomRemoval s.response
    -- Step 5: parse failure yields null and raises nothing
    match jsParseJSON jsonText with
    | none => (.null, s)
    -- Step 6
    | some v => (v, { s with responseJson := v })

/-! ## Open -/

/-- Model of an ASCII byte list as a Lean string. -/
def asciiString (l : List Nat) : String :=
  String.mk (l.map Char.ofNat)

/-- Modelled from the spec: `ByteString::as_str` (from `dom::bindings::str`,
not under `src/`): the UTF-8 view of the bytes when valid.  Modelled for the
ASCII case; a method containing non-ASCII bytes fails the token grammar in
both the source and this model, reaching the same `Syntax` result. -/
def byteStringAsStr (l : List Nat) : Option String :=
  if l.all (fun c => c < 128) then some (asciiString l) else none

/-- Modelled from the spec: `hyper::Method`'s `FromStr` (the `hyper` crate is
an external collaborator): known method names map to their variants, any
other nonempty HTTP token becomes an extension method, and a non-token
string fails to parse. -/
def parseMethod (s : String) : Option MethodM :=
  if s = "GET" then some .get
  else if s = "HEAD" then some .head
  else if s = "POST" then some .post
  else if s = "PUT" then some .put
  else if s = "DELETE" then some .deleteM
  else if s = "OPTIONS" then some .options
  else if s = "CONNECT" then some .connect
  else if s = "TRACE" then some .trace
  else if is_token (bytes s) then some (.ext s) else none

/-- Model of `Open_`'s method normalization: uppercase the name; names in the
short list parse uppercased (so e.g. `track` becomes the extension method
`TRACK`), any other name parses with its capitalization preserved. -/
def maybeMethod (method : List Nat) : Option MethodM :=
  (byteStringAsStr method).bind (fun s =>
    let upper := s.toUpper
    if upper ∈ (["DELETE", "GET", "HEAD", "OPTIONS", "POST", "PUT", "CONNECT",
        "TRACE", "TRACK"] : List String) then
      parseMethod upper
    else parseMethod s)

/-- Model of the `Open_` method.  `joinUrl` models `base.join(&url)` of the
external `url` crate: resolution of the request url against the global's api
base url, `none` on parse failure. -/
def Open_ (handler : Handler) (joinUrl : String → Option UrlModel) (s : XHRState)
    (method : List Nat) (url : String) (async : Bool)
    (username password : Option String) : XHRState × List Notif × Option XHRError :=
  -- Step 1
  if s.isWindow = true ∧ s.documentFullyActive = false then (s, [], some .invalidState)
  else
    -- Step 5
    match maybeMethod method with
    -- Step 3: invalid extension method names
    | none => (s, [], some .syntaxError)
    | some m =>
      -- Step 4
      if m = .connect ∨ m = .trace then (s, [], some .security)
      else if m.asStr = "TRACK" then (s, [], some .security)
      else
        -- Step 3
        if is_token method = false then (s, [], some .syntaxError)
        else
          -- Step 2, 6, 7
          match joinUrl url with
          | none => (s, [], some .syntaxError)
          | some parsedUrl =>
            -- Step 9
            let parsedUrl :=
              if parsedUrl.host.isSome then
                match username with
                | some u => { parsedUrl with username := u, password := password }
                | none => parsedUrl
              else parsedUrl
            -- Step 10
            if async = false ∧ (s.timeout ≠ 0 ∨ s.responseType ≠ .empty) then
              (s, [], some .invalidAccess)
            else
              -- Step 11: abort existing requests
              let s := terminateOngoingFetch s
              -- Step 12
              let s := { s with requestMethod := m,
                                requestUrl := some parsedUrl,
                                sync := !async,
                                requestHeaders := [],
                                sendFlag := false,
                                statusText := [],
                                status := 0 }
              -- Step 13
              if s.readyState ≠ .opened then
                let s := { s with readyState := .opened }
                (handler .readystatechange s, [.readystatechange], none)
              else (s, [], none)

/-! ## Helper lemmas -/

lemma headerGetAll_insert (h : HeaderMap) (k v : List Nat) :
    headerGetAll (headerInsert h k v) k = [v] := by
  induction h with
  | nil => simp [headerInsert, headerGetAll, List.find?]
  | cons e t ih =>
    by_cases he : (e.1 == k) = true
    · simp [headerInsert, headerGetAll, List.find?, he]
    · simp only [headerInsert, he, Bool.false_eq_true, if_false]
      simpa [headerGetAll, List.find?, he] using ih

lemma headerGet_insert (h : HeaderMap) (k v : List Nat) :
    headerGet (headerInsert h k v) k = some v := by
  simp [headerGet, headerGetAll_insert]

/-! ## Claim theorems -/

/-- C5: `is_field_value` accepts `"value"`, rejects `"va\x01lue"` (control
character), accepts `"line1\r\n value2"` (CRLF immediately followed by SP is
valid folding), rejects `"line1\r\nvalue2"` (CRLF not followed by SP/HT), and
in general accepts a byte sequence iff the specification's 4-state
`{Other, CR, LF, SP/HT-run}` machine for the RFC 2616 field-value grammar
accepts it. -/
theorem c5_is_field_value_grammar :
    is_field_value (bytes "value") = true ∧
    is_field_value (bytes "va" ++ [1] ++ bytes "lue") = false ∧
    is_field_value (bytes "line1\r\n value2") = true ∧
    is_field_value (bytes "line1\r\nvalue2") = false ∧
    ∀ l : List Nat, is_field_value l = specFieldValueAccepts l := by
  refine ⟨by decide, by decide, by decide, by decide, fun l => ?_⟩
  exact fieldValueLoop_eq_spec l .other

/-- C1: any event delivered to `process_partial_response` whose generation id
differs from the controller's current generation id, or delivered while the
response status flag is already Err, performs no state mutation and fires no
notification — the state is returned unchanged in every field, for every
handler. -/
theorem c1_stale_or_errored_event_ignored (handler : Handler) (s : XHRState)
    (p : XHRProgress)
    (h : p.generationId ≠ s.generationId ∨ s.responseStatusOk = false) :
    processPartialResponse handler s p = (s, []) := by
  unfold processPartialResponse
  rcases h with h | h
  · simp [h]
  · rcases eq_or_ne p.generationId s.generationId with hg | hg
    · simp [hg, h]
    · simp [hg]

theorem c1_witness :
    ((XHRProgress.doneEvt 1).generationId ≠ (newXHR true false true).generationId ∨
      (newXHR true false true).responseStatusOk = false) ∧
    processPartialResponse (fun _ st => st) (newXHR true false true) (.doneEvt 1) =
      (newXHR true false true, []) :=
  ⟨Or.inl (by decide),
   c1_stale_or_errored_event_ignored _ _ _ (Or.inl (by decide))⟩

/-- C9: `abort()` on a controller in state Unsent with no send in progress
produces no notifications and leaves the ready state Unsent, for every
handler. -/
theorem c9_abort_unsent_no_notifications (handler : Handler) (s : XHRState)
    (h1 : s.readyState = .unsent) (h2 : s.sendFlag = false) :
    (Abort handler s).2 = [] ∧ (Abort handler s).1.readyState = .unsent := by
  unfold Abort terminateOngoingFetch
  simp [h1, h2]

theorem c9_witness :
    (newXHR true false true).readyState = .unsent ∧
    (newXHR true false true).sendFlag = false ∧
    ((Abort (fun _ st => st) (newXHR true false true)).2 = [] ∧
     (Abort (fun _ st => st) (newXHR true false true)).1.readyState = .unsent) :=
  ⟨rfl, rfl, c9_abort_unsent_no_notifications _ _ rfl rfl⟩

/-- The fresh synchronous-in-window state used for the C3 counterexample:
`sync` set, window global, timeout field 0. -/
def c3State : XHRState := { newXHR true false true with sync := true }

/-- C3 counterexample: calling `SetTimeout` with 5 while synchronous in a
window context returns InvalidAccess but does NOT set the timeout field —
the source returns before the `self.timeout.set(timeout)` line, so the field
keeps its previous value 0, refuting the claim that the field is set to the
given value. -/
theorem c3_counterexample :
    (SetTimeout 0 c3State 5).2 = some .invalidAccess ∧
    ¬ (SetTimeout 0 c3State 5).1.timeout = 5 := by
  constructor
  · rfl
  · decide

/-- C3 (amended): when `setTimeout(ms)` is called while the request is
synchronous in a window context, the call returns InvalidAccess and the
whole state — in particular the timeout field — is left unchanged. -/
theorem c3_sync_in_window_rejected_unchanged (now : Int) (s : XHRState) (t : Nat)
    (h : syncInWindow s = true) :
    SetTimeout now s t = (s, some .invalidAccess) := by
  unfold SetTimeout
  simp [h]

theorem c3_witness :
    syncInWindow c3State = true ∧
    SetTimeout 0 c3State 5 = (c3State, some .invalidAccess) :=
  ⟨rfl, c3_sync_in_window_rejected_unchanged 0 c3State 5 rfl⟩

/-- A fresh state whose global scope is worker-like, for C4. -/
def c4State : XHRState := newXHR false true true

/-- C4 counterexample: `SetResponseType` with the Document type in a
worker-like global returns success (no error), not an InvalidAccess failure,
refuting the claim that the call fails with InvalidAccess. -/
theorem c4_counterexample :
    (SetResponseType c4State .document).2 = none ∧
    ¬ (SetResponseType c4State .document).2 = some .invalidAccess := by
  exact ⟨rfl, by decide⟩

/-- C4 (amended): calling `setResponseType` with the Document type in a
worker-like global context is a silent no-op: the call returns success and
the stored response type (the whole state) is unchanged. -/
theorem c4_worker_document_silent_noop (s : XHRState) (h : s.isWorker = true) :
    SetResponseType s .document = (s, none) := by
  unfold SetResponseType
  simp [h]

theorem c4_witness :
    c4State.isWorker = true ∧
    SetResponseType c4State .document = (c4State, none) :=
  ⟨rfl, c4_worker_document_silent_noop c4State rfl⟩

/-- A state holding two response-header values for the name `x-foo`. -/
def c2State : XHRState :=
  { newXHR true false true with
      responseHeaders := [(bytes "x-foo", [bytes "a", bytes "b"])] }

/-- C2 (evaluation at the failing input): with the two stored values "a" and
"b" for `x-foo`, `GetAllResponseHeaders` produces the line "x-foo: ab\r\n" —
the values are concatenated with no ", " separator, because the
`first = false` assignment in the source sits inside `if !first` and can
never execute — instead of the "x-foo: a, b\r\n" the claim states. -/
theorem c2_getallresponseheaders_no_separator :
    GetAllResponseHeaders c2State = bytes "x-foo: ab\r\n" := by decide

/-- A state holding two response-header values for `x-bar`, showing that the
sibling `GetResponseHeader` method does join the same stored values with the
", " separator (its `first = false` assignment is reachable), which marks
the `GetAllResponseHeaders` behavior as a slip rather than a policy. -/
def c2StateB : XHRState :=
  { newXHR true false true with
      responseHeaders := [(bytes "x-bar", [bytes "a", bytes "b"])] }

theorem getResponseHeader_joins_with_separator :
    GetResponseHeader c2StateB (bytes "X-Bar") = some (bytes "a, b") := by decide

/-- C6: on a request in state Opened that is not sending and has no stored
`x-foo` header yet, `setRequestHeader("X-Foo","a")` followed by
`setRequestHeader("X-Foo","b")` succeeds twice and leaves the stored value
for `x-foo` equal to the byte string "a, b": the second call appends with the
", " separator rather than replacing. -/
theorem c6_setrequestheader_appends (s : XHRState)
    (h1 : s.readyState = .opened) (h2 : s.sendFlag = false)
    (h3 : headerGet s.requestHeaders (bytes "x-foo") = none) :
    (SetRequestHeader s (bytes "X-Foo") (bytes "a")).2 = none ∧
    (SetRequestHeader (SetRequestHeader s (bytes "X-Foo") (bytes "a")).1
      (bytes "X-Foo") (bytes "b")).2 = none ∧
    headerGet (SetRequestHeader (SetRequestHeader s (bytes "X-Foo") (bytes "a")).1
      (bytes "X-Foo") (bytes "b")).1.requestHeaders (bytes "x-foo") =
      some (bytes "a, b") := by
  have hta : trimHttpWhitespace (bytes "a") = bytes "a" := by decide
  have htb : trimHttpWhitespace (bytes "b") = bytes "b" := by decide
  have htok : is_token (bytes "X-Foo") = true := by decide
  have hfa : is_field_value (bytes "a") = true := by decide
  have hfb : is_field_value (bytes "b") = true := by decide
  have hlow : toLowerBytes (bytes "X-Foo") = bytes "x-foo" := by decide
  have hforb : isForbiddenHeaderName (bytes "x-foo") = false := by decide
  have hcat : bytes "a" ++ bytes ", " ++ bytes "b" = bytes "a, b" := by decide
  simp only [SetRequestHeader, h1, h2, hta, htb, htok, hfa, hfb, hlow, hforb, h3,
    headerGet_insert, hcat]
  simp [h1, h2, headerGet_insert, hcat]

/-- An opened, not-sending request with no headers yet. -/
def c6State : XHRState := { newXHR true false true with readyState := .opened }

theorem c6_witness :
    c6State.readyState = .opened ∧ c6State.sendFlag = false ∧
    headerGet c6State.requestHeaders (bytes "x-foo") = none ∧
    ((SetRequestHeader c6State (bytes "X-Foo") (bytes "a")).2 = none ∧
     (SetRequestHeader (SetRequestHeader c6State (bytes "X-Foo") (bytes "a")).1
       (bytes "X-Foo") (bytes "b")).2 = none ∧
     headerGet (SetRequestHeader (SetRequestHeader c6State (bytes "X-Foo") (bytes "a")).1
       (bytes "X-Foo") (bytes "b")).1.requestHeaders (bytes "x-foo") =
       some (bytes "a, b")) :=
  ⟨rfl, rfl, rfl, c6_setrequestheader_appends c6State rfl rfl rfl⟩

/-- A finished (Done) response with an empty buffer and empty cache slot. -/
def c8DoneBase : XHRState := { newXHR true false true with readyState := .done }

/-- A Done response whose buffer holds the bytes "not json". -/
def c8NotJson : XHRState := { c8DoneBase with response := bytes "not json" }

/-- A Done response whose buffer holds the bytes "42". -/
def c8Num : XHRState := { c8DoneBase with response := bytes "42" }

/-- C8: for the JSON-typed response read (`json_response`, the Done-gated
view): an empty response buffer yields null; the bytes "not json" yield null
without raising (the function is total and returns the null value); the
bytes "42" yield the numeric value 42; and the produced value never depends
on the charset override — the decode step is always UTF-8 with BOM
removal. -/
theorem c8_json_response_null_and_decode :
    (∀ s : XHRState, s.responseJson = .undef → s.response = [] →
      (json_response s).1 = .null) ∧
    (json_response c8NotJson).1 = .null ∧
    (json_response c8Num).1 = .num 42 ∧
    (∀ (s : XHRState) (c : Option String),
      (json_response { s with overrideCharset := c }).1 = (json_response s).1) := by
  refine ⟨?_, by decide, by decide, ?_⟩
  · intro s h1 h2
    simp [json_response, h1, h2]
  · intro s c
    simp only [json_response]
    by_cases h1 : s.responseJson ≠ JVal.null ∧ s.responseJson ≠ JVal.undef
    · simp [h1]
    · by_cases h2 : s.response.length = 0
      · simp [h1, h2]
      · simp only [h1, h2, if_false]
        cases jsParseJSON (decodeToUtf16WithBomRemoval s.response) <;> simp

theorem c8_witness :
    c8DoneBase.responseJson = .undef ∧ c8DoneBase.response = [] ∧
    (json_response c8DoneBase).1 = .null ∧
    (json_response { c8Num with overrideCharset := some "latin1" }).1 =
      (json_response c8Num).1 :=
  ⟨rfl, rfl, c8_json_response_null_and_decode.1 c8DoneBase rfl rfl,
   c8_json_response_null_and_decode.2.2.2 c8Num (some "latin1")⟩

/-- C7: a HeadersReceived event for the current generation, carrying a
Content-Length of n, clears the response buffer and pre-reserves exactly
min(n, 4194304) bytes, for every handler that does not tamper with the
generation id, the buffer or the reserve amount. -/
theorem c7_headers_received_prereserve (handler : Handler) (s : XHRState)
    (hdrs : HeaderMap) (status : Option (Nat × List Nat)) (n : Nat)
    (hpres : ∀ (nf : Notif) (st : XHRState),
      (handler nf st).generationId = st.generationId ∧
      (handler nf st).response = st.response ∧
      (handler nf st).responseReserved = st.responseReserved)
    (hstate : s.readyState = .opened)
    (hok : s.responseStatusOk = true)
    (hlen : typedGetContentLength hdrs = some n) :
    (processPartialResponse handler s
      (.headersReceived s.generationId (some hdrs) status)).1.response = [] ∧
    (processPartialResponse handler s
      (.headersReceived s.generationId (some hdrs) status)).1.responseReserved =
      min 4194304 n := by
  have hgen : ∀ nf st, (handler nf st).generationId = st.generationId :=
    fun nf st => (hpres nf st).1
  have hresp : ∀ nf st, (handler nf st).response = st.response :=
    fun nf st => (hpres nf st).2.1
  have hres : ∀ nf st, (handler nf st).responseReserved = st.responseReserved :=
    fun nf st => (hpres nf st).2.2
  cases status <;> cases hsync : s.sync <;>
    simp [processPartialResponse, XHRProgress.generationId, fireThen, hok, hlen,
      hgen, hresp, hres, hsync] <;>
    split_ifs <;> simp [hgen, hresp, hres]

/-- The opened state and headers used to instantiate C7 at the
Content-Length 5000000 example. -/
def c7State : XHRState := { newXHR true false true with readyState := .opened }

def c7Hdrs : HeaderMap := [(bytes "content-length", [bytes "5000000"])]

theorem c7_witness :
    c7State.readyState = .opened ∧ c7State.responseStatusOk = true ∧
    typedGetContentLength c7Hdrs = some 5000000 ∧
    (processPartialResponse (fun _ st => st) c7State
      (.headersReceived c7State.generationId (some c7Hdrs) none)).1.response = [] ∧
    (processPartialResponse (fun _ st => st) c7State
      (.headersReceived c7State.generationId (some c7Hdrs) none)).1.responseReserved =
      4194304 :=
  ⟨rfl, rfl, by decide,
   (c7_headers_received_prereserve (fun _ st => st) c7State c7Hdrs none 5000000
     (fun _ _ => ⟨rfl, rfl, rfl⟩) rfl rfl (by decide)).1,
   ((c7_headers_received_prereserve (fun _ st => st) c7State c7Hdrs none 5000000
     (fun _ _ => ⟨rfl, rfl, rfl⟩) rfl rfl (by decide)).2).trans (by decide)⟩

/-- C10: `Open_` is atomic on failure — whenever it returns an error
(InvalidState, Syntax, Security, or InvalidAccess), the state is exactly the
caller's state: the generation id is not incremented, the fetch canceller is
untouched, no notification fires, and every field (ready state, request
method, request url, request headers, sync flag, send flag, status, status
text) is unchanged; all validation occurs before any mutation. -/
theorem c10_open_atomic_on_failure (handler : Handler)
    (joinUrl : String → Option UrlModel) (s : XHRState) (method : List Nat)
    (url : String) (async : Bool) (username password : Option String)
    (e : XHRError)
    (h : (Open_ handler joinUrl s method url async username password).2.2 = some e) :
    (Open_ handler joinUrl s method url async username password).1 = s ∧
    (Open_ handler joinUrl s method url async username password).2.1 = [] := by
  by_cases h1 : s.isWindow = true ∧ s.documentFullyActive = false
  · simp [Open_, h1]
  · rcases hm : maybeMethod method with _ | m
    · simp [Open_, h1, hm]
    · by_cases h2 : m = .connect ∨ m = .trace
      · simp [Open_, h1, hm, h2]
      · by_cases h3 : m.asStr = "TRACK"
        · simp [Open_, h1, hm, h2, h3]
        · by_cases h4 : is_token method = false
          · simp [Open_, h1, hm, h2, h3, h4]
          · rcases hu : joinUrl url with _ | pu
            · simp [Open_, h1, hm, h2, h3, h4, hu]
            · by_cases h5 : async = false ∧ (s.timeout ≠ 0 ∨ s.responseType ≠ .empty)
              · simp [Open_, h1, hm, h2, h3, h4, hu, h5]
              · exfalso
                simp only [Open_, h1, hm, h2, h3, h4, hu, h5] at h
                simp at h
                split at h <;> simp_all

/-- A window-global state whose document is not fully active, so `Open_`
fails with InvalidState at its very first check. -/
def c10State : XHRState := newXHR true false false

theorem c10_witness :
    (Open_ (fun _ st => st) (fun _ => none) c10State (bytes "GET") "https://a/"
      true none none).2.2 = some .invalidState ∧
    ((Open_ (fun _ st => st) (fun _ => none) c10State (bytes "GET") "https://a/"
      true none none).1 = c10State ∧
     (Open_ (fun _ st => st) (fun _ => none) c10State (bytes "GET") "https://a/"
      true none none).2.1 = []) :=
  ⟨rfl, c10_open_atomic_on_failure (fun _ st => st) (fun _ => none) c10State
    (bytes "GET") "https://a/" true none none .invalidState rfl⟩
